import Mathlib

/-!
Verification development for the sipin SIP-creator.

The definitions below are a shallow embedding of the Python sources:
`app/helpers/premis.py`, `app/helpers/sidecar.py`, `app/helpers/bag.py`
and `app/app.py`.  XML element trees built with `lxml.etree` are modelled
by the inductive `Elem`; Python values that may dynamically be a string,
`None`, or a list of strings are modelled by `PyTextVal`, because the
assignment `element.text = value` in lxml accepts a string (or `None`)
and raises `TypeError` on a list.  Fallible Python code is embedded in
the `Except PyErr` monad.
-/

/-- A Python value appearing in a text-assignment position: a `str`,
`None`, or (erroneously) a `list[str]`.  lxml only accepts the first two. -/
inductive PyTextVal where
  | str (s : String)
  | strList (xs : List String)
  | noneVal
deriving Repr, DecidableEq

/-- Runtime errors of the embedded Python code. -/
inductive PyErr where
  | typeError (msg : String)
  | attributeError (msg : String)
  | fileNotFound (path : String)
  | nameError (msg : String)
deriving Repr, DecidableEq

/-- An lxml element: tag, attributes, optional text, ordered children. -/
structure Elem where
  tag : String
  attrs : List (String × String)
  text : Option String
  children : List Elem

/-- `etree.Element(tag, attrib=attrs)` with optional text and children;
children listed in the order the Python code appends them. -/
def mkEl (tag : String) (attrs : List (String × String) := [])
    (text : Option String := none) (children : List Elem := []) : Elem :=
  ⟨tag, attrs, text, children⟩

/-- `element.text = value` in lxml: accepts `str` (sets the text) and
`None` (clears it); any other type, in particular a list, raises
`TypeError("Argument must be bytes or unicode, got ...")`. -/
def setTextDyn (e : Elem) (v : PyTextVal) : Except PyErr Elem :=
  match v with
  | .str s => .ok { e with text := some s }
  | .noneVal => .ok { e with text := none }
  | .strList _ => .error (.typeError "Argument must be bytes or unicode, got list")

/-- `mapM` over `Except`, written as explicit recursion so that it mirrors
the sequential `for` loops of the Python code and unfolds predictably. -/
def mapExcept (f : α → Except PyErr Elem) : List α → Except PyErr (List Elem)
  | [] => .ok []
  | x :: xs => do
    let y ← f x
    let ys ← mapExcept f xs
    .ok (y :: ys)

/-- Python truthiness of an `Optional[str]`: `None` and `""` are falsy. -/
def truthy : Option String → Bool
  | none => false
  | some s => s ≠ ""

/-- Python f-string interpolation of an `Optional[str]`: `None` renders
as the string `"None"`. -/
def pyFStr : Option String → String
  | none => "None"
  | some s => s

/-- Python `str.lower()` (the inputs here are ASCII). -/
def lowerStr (s : String) : String := ⟨s.toList.map Char.toLower⟩

/-- Python `str.upper()` (the inputs here are ASCII). -/
def upperStr (s : String) : String := ⟨s.toList.map Char.toUpper⟩

/-- Python `str.strip()`: remove leading and trailing whitespace (the
sidecar values here contain only ASCII whitespace). -/
def pyStrip (s : String) : String :=
  ⟨((s.toList.dropWhile Char.isWhitespace).reverse.dropWhile Char.isWhitespace).reverse⟩

/-- Remove the last `n` characters of a string. -/
def dropRightStr (s : String) (n : Nat) : String :=
  ⟨s.toList.take (s.toList.length - n)⟩

/-- `xml_utils.qname_text(NSMAP, prefix, tag)`: the Clark notation
`{namespace-uri}tag` used by lxml for namespaced tags. -/
def qname_text (ns tag : String) : String := "\x7b" ++ ns ++ "\x7d" ++ tag

/-- `NSMAP["premis"]` in `app/helpers/premis.py`. -/
def premisNS : String := "http://www.loc.gov/premis/v3"

/-- `NSMAP["xsi"]`. -/
def xsiNS : String := "http://www.w3.org/2001/XMLSchema-instance"

/-- `NSMAP["schema"]`. -/
def schemaNS : String := "http://schema.org/"

namespace premis

/-- `premis.RelationshipSubtype` — the enum as defined in
`app/helpers/premis.py` lines 24-28.  It has exactly four members. -/
inductive RelationshipSubtype where
  | INCLUDES
  | REPRESENTED_BY
  | REPRESENTS
  | INCLUDED_IN
deriving Repr, DecidableEq

/-- The `.value` of each `RelationshipSubtype` member. -/
def RelationshipSubtype.value : RelationshipSubtype → String
  | .INCLUDES => "includes"
  | .REPRESENTED_BY => "is represented by"
  | .REPRESENTS => "represents"
  | .INCLUDED_IN => "is included in"

/-- Python attribute access `RelationshipSubtype.<name>`.  Only the four
member names defined in `premis.py` resolve; any other name (such as
`IS_REQUIRED_BY` or `REQUIRES`, which `bag.py` references) raises
`AttributeError`, modelled by `none`. -/
def RelationshipSubtype.pyAttr : String → Option RelationshipSubtype
  | "INCLUDES" => some .INCLUDES
  | "REPRESENTED_BY" => some .REPRESENTED_BY
  | "REPRESENTS" => some .REPRESENTS
  | "INCLUDED_IN" => some .INCLUDED_IN
  | _ => none

/-- Resolve `RelationshipSubtype.<name>` or raise `AttributeError`, as the
Python interpreter does at each attribute access in `bag.py`. -/
def getRelationshipSubtype (name : String) : Except PyErr RelationshipSubtype :=
  match RelationshipSubtype.pyAttr name with
  | some st => .ok st
  | none => .error (.attributeError ("type object RelationshipSubtype has no attribute " ++ name))

/-- `Relationship.TYPE_URI_MAP` from `premis.py` lines 137-142. -/
def TYPE_URI_MAP : RelationshipSubtype → String
  | .INCLUDES => "inc"
  | .REPRESENTED_BY => "isr"
  | .REPRESENTS => "rep"
  | .INCLUDED_IN => "isi"

/-- `premis.RelatedObjectIdentifier`.  Its `uuid` argument is annotated
`str` in the source, but the callers in `bag.py` hand it whatever value
the enclosing `Relationship` stores, so it is dynamic here. -/
structure RelatedObjectIdentifier where
  uuid : PyTextVal

/-- `RelatedObjectIdentifier.to_element` (premis.py lines 105-126). -/
def RelatedObjectIdentifier.to_element (r : RelatedObjectIdentifier) : Except PyErr Elem := do
  let typeEl ← setTextDyn (mkEl (qname_text premisNS "relatedObjectIdentifierType")) (.str "UUID")
  let valueEl ← setTextDyn (mkEl (qname_text premisNS "relatedObjectIdentifierValue")) r.uuid
  .ok (mkEl (qname_text premisNS "relatedObjectIdentifier") [] none [typeEl, valueEl])

/-- `premis.Relationship`.  The constructor parameter is annotated
`uuid: str`, but every call site in `bag.py` passes a `list[str]`;
the field is therefore modelled dynamically. -/
structure Relationship where
  subtype : RelationshipSubtype
  uuid : PyTextVal

/-- `Relationship.to_element` (premis.py lines 148-185). -/
def Relationship.to_element (r : Relationship) : Except PyErr Elem := do
  let typeEl ← setTextDyn
    (mkEl (qname_text premisNS "relationshipType")
      [("authority", "relationshipType"),
       ("authorityURI", "http://id.loc.gov/vocabulary/preservation/relationshipType"),
       ("valueURI", "http://id.loc.gov/vocabulary/preservation/relationshipType/str")])
    (.str "structural")
  let subEl ← setTextDyn
    (mkEl (qname_text premisNS "relationshipSubtype")
      [("authority", "relationshipSubType"),
       ("authorityURI", "http://id.loc.gov/vocabulary/preservation/relationshipSubType"),
       ("valueURI", "http://id.loc.gov/vocabulary/preservation/relationshipSubType/"
          ++ TYPE_URI_MAP r.subtype)])
    (.str r.subtype.value)
  let relObj ← (RelatedObjectIdentifier.mk r.uuid).to_element
  .ok (mkEl (qname_text premisNS "relationship") [] none [typeEl, subEl, relObj])

/-- `premis.ObjectType` (premis.py lines 31-34). -/
inductive ObjectType where
  | IE
  | FILE
  | REPRESENTATION
deriving Repr, DecidableEq

/-- The `.value` of each `ObjectType` member. -/
def ObjectType.value : ObjectType → String
  | .IE => "intellectualEntity"
  | .FILE => "file"
  | .REPRESENTATION => "representation"

/-- `premis.OriginalName` (premis.py lines 37-58). -/
structure OriginalName where
  name : String

/-- `OriginalName.to_element`. -/
def OriginalName.to_element (o : OriginalName) : Elem :=
  mkEl (qname_text premisNS "originalName") [] (some o.name)

/-- `premis.ObjectIdentifier`.  `value` is dynamic: `bag.py` passes
`Optional[str]` sidecar fields for it. -/
structure ObjectIdentifier where
  type : String
  value : PyTextVal

/-- `ObjectIdentifier.to_element` (premis.py lines 72-93). -/
def ObjectIdentifier.to_element (o : ObjectIdentifier) : Except PyErr Elem := do
  let typeEl ← setTextDyn (mkEl (qname_text premisNS "objectIdentifierType")) (.str o.type)
  let valueEl ← setTextDyn (mkEl (qname_text premisNS "objectIdentifierValue")) o.value
  .ok (mkEl (qname_text premisNS "objectIdentifier") [] none [typeEl, valueEl])

/-- `premis.Fixity` (premis.py lines 188-229); default `md5 = ""`. -/
structure Fixity where
  md5 : String

/-- `Fixity.to_element`: empty fixity node when the md5 value is falsy. -/
def Fixity.to_element (f : Fixity) : Elem :=
  let inner : List Elem :=
    if f.md5 ≠ "" then
      [mkEl (qname_text premisNS "messageDigestAlgorithm")
        [("authority", "cryptographicHashFunctions"),
         ("authorityURI", "http://id.loc.gov/vocabulary/preservation/cryptographicHashFunctions"),
         ("valueURI", "http://id.loc.gov/vocabulary/preservation/cryptographicHashFunctions/md5")]
        (some "MD5"),
       mkEl (qname_text premisNS "messageDigest") [] (some f.md5)]
    else []
  mkEl (qname_text premisNS "objectCharacteristics") [] none
    [mkEl (qname_text premisNS "fixity") [] none inner]

/-- `premis.Storage` (premis.py lines 256-283). -/
structure Storage where
  storage_medium : String

/-- `Storage.to_element`. -/
def Storage.to_element (s : Storage) : Elem :=
  mkEl (qname_text premisNS "storage") [] none
    [mkEl (qname_text premisNS "storageMedium") [] (some s.storage_medium)]

/-- `premis.Object` (premis.py lines 286-357). -/
structure Object where
  type : ObjectType
  identifiers : List ObjectIdentifier
  original_name : Option OriginalName := none
  fixity : Option Fixity := none
  relationships : List Relationship := []
  storages : List Storage := []

/-- `Object.add_relationship`: appends. -/
def Object.add_relationship (o : Object) (r : Relationship) : Object :=
  { o with relationships := o.relationships ++ [r] }

/-- `Object.add_identifier`: appends. -/
def Object.add_identifier (o : Object) (i : ObjectIdentifier) : Object :=
  { o with identifiers := o.identifiers ++ [i] }

/-- `Object.to_element` (premis.py lines 323-357): original name, then
identifiers, then fixity, then storages, then relationships. -/
def Object.to_element (o : Object) : Except PyErr Elem := do
  let ids ← mapExcept ObjectIdentifier.to_element o.identifiers
  let rels ← mapExcept Relationship.to_element o.relationships
  .ok (mkEl (qname_text premisNS "object")
    [(qname_text xsiNS "type", "premis:" ++ o.type.value)] none
    ((match o.original_name with | some n => [n.to_element] | none => [])
      ++ ids
      ++ (match o.fixity with | some f => [f.to_element] | none => [])
      ++ o.storages.map Storage.to_element
      ++ rels))

/-- `premis.AgentIdentifier`; `value` is dynamic (`bag.py` passes the
optional sidecar field `sp_id`). -/
structure AgentIdentifier where
  type : String
  value : PyTextVal

/-- `AgentIdentifier.to_element` (premis.py lines 373-394). -/
def AgentIdentifier.to_element (a : AgentIdentifier) : Except PyErr Elem := do
  let typeEl ← setTextDyn (mkEl (qname_text premisNS "agentIdentifierType")) (.str a.type)
  let valueEl ← setTextDyn (mkEl (qname_text premisNS "agentIdentifierValue")) a.value
  .ok (mkEl (qname_text premisNS "agentIdentifier") [] none [typeEl, valueEl])

/-- `premis.AgentExtension` (premis.py lines 397-454); the fields default
to `""` and `bag.py` passes optional sidecar fields, so they are
`Option String` with Python truthiness. -/
structure AgentExtension where
  model : Option String := none
  brand_name : Option String := none
  serial_number : Option String := none

/-- `AgentExtension.to_element`: model, brand (with nested name), serial
number — each emitted only when truthy. -/
def AgentExtension.to_element (a : AgentExtension) : Elem :=
  mkEl (qname_text premisNS "agentExtension") [] none
    ((if truthy a.model then [mkEl (qname_text schemaNS "model") [] a.model] else [])
      ++ (if truthy a.brand_name then
            [mkEl (qname_text schemaNS "brand") [] none
              [mkEl (qname_text schemaNS "name") [] a.brand_name]]
          else [])
      ++ (if truthy a.serial_number then
            [mkEl (qname_text schemaNS "serialNumber") [] a.serial_number]
          else []))

/-- `premis.Agent` (premis.py lines 457-512). -/
structure Agent where
  identifiers : List AgentIdentifier
  type : Option String := none
  name : Option String := none
  extension : Option AgentExtension := none

/-- `Agent.to_element`: identifiers, then name and type when truthy, then
the extension when present. -/
def Agent.to_element (a : Agent) : Except PyErr Elem := do
  let ids ← mapExcept AgentIdentifier.to_element a.identifiers
  .ok (mkEl (qname_text premisNS "agent") [] none
    (ids
      ++ (if truthy a.name then [mkEl (qname_text premisNS "agentName") [] a.name] else [])
      ++ (if truthy a.type then [mkEl (qname_text premisNS "agentType") [] a.type] else [])
      ++ (match a.extension with | some e => [e.to_element] | none => [])))

/-- `premis.LinkingAgentRole` (premis.py lines 515-544); `value_uri`
defaults to `""`. -/
structure LinkingAgentRole where
  role : String
  value_uri : String := ""

/-- `LinkingAgentRole.to_element`. -/
def LinkingAgentRole.to_element (r : LinkingAgentRole) : Elem :=
  mkEl (qname_text premisNS "linkingAgentRole")
    (if r.value_uri ≠ "" then [("valueURI", r.value_uri)] else []) (some r.role)

/-- `premis.LinkingAgentIdentifier` (premis.py lines 547-589); the value
is dynamic (`bag.py` passes the optional sidecar field `sp_id`). -/
structure LinkingAgentIdentifier where
  type : String
  value : PyTextVal
  roles : List LinkingAgentRole := []

/-- `LinkingAgentIdentifier.to_element`. -/
def LinkingAgentIdentifier.to_element (l : LinkingAgentIdentifier) : Except PyErr Elem := do
  let typeEl ← setTextDyn (mkEl (qname_text premisNS "linkingAgentIdentifierType")) (.str l.type)
  let valueEl ← setTextDyn (mkEl (qname_text premisNS "linkingAgentIdentifierValue")) l.value
  .ok (mkEl (qname_text premisNS "linkingAgentIdentifier") [] none
    ([typeEl, valueEl] ++ l.roles.map LinkingAgentRole.to_element))

/-- `premis.LinkingObjectRole` (premis.py lines 592-621). -/
structure LinkingObjectRole where
  role : String
  value_uri : String := ""

/-- `LinkingObjectRole.to_element`. -/
def LinkingObjectRole.to_element (r : LinkingObjectRole) : Elem :=
  mkEl (qname_text premisNS "linkingObjectRole")
    (if r.value_uri ≠ "" then [("valueURI", r.value_uri)] else []) (some r.role)

/-- `premis.LinkingObjectIdentifier` (premis.py lines 624-666). -/
structure LinkingObjectIdentifier where
  type : String
  value : String
  roles : List LinkingObjectRole := []

/-- `LinkingObjectIdentifier.to_element`. -/
def LinkingObjectIdentifier.to_element (l : LinkingObjectIdentifier) : Elem :=
  mkEl (qname_text premisNS "linkingObjectIdentifier") [] none
    ([mkEl (qname_text premisNS "linkingObjectIdentifierType") [] (some l.type),
      mkEl (qname_text premisNS "linkingObjectIdentifierValue") [] (some l.value)]
      ++ l.roles.map LinkingObjectRole.to_element)

/-- `premis.EventIdentifier` (premis.py lines 669-703). -/
structure EventIdentifier where
  type : String
  value : String

/-- `EventIdentifier.to_element`. -/
def EventIdentifier.to_element (e : EventIdentifier) : Elem :=
  mkEl (qname_text premisNS "eventIdentifier") [] none
    [mkEl (qname_text premisNS "eventIdentifierType") [] (some e.type),
     mkEl (qname_text premisNS "eventIdentifierValue") [] (some e.value)]

/-- `premis.EventDetailInformation` (premis.py lines 706-733); the detail
is an optional sidecar field at the `bag.py` call site. -/
structure EventDetailInformation where
  detail : Option String

/-- `EventDetailInformation.to_element`. -/
def EventDetailInformation.to_element (e : EventDetailInformation) : Elem :=
  mkEl (qname_text premisNS "eventDetailInformation") [] none
    [mkEl (qname_text premisNS "eventDetail") [] e.detail]

/-- `premis.Event` (premis.py lines 736-807). -/
structure Event where
  identifier : EventIdentifier
  type : String
  date_time : String
  event_detail_informations : List EventDetailInformation := []
  linking_agent_identifiers : List LinkingAgentIdentifier := []
  linking_object_identifiers : List LinkingObjectIdentifier := []

/-- `Event.to_element` (premis.py lines 771-807). -/
def Event.to_element (e : Event) : Except PyErr Elem := do
  let lais ← mapExcept LinkingAgentIdentifier.to_element e.linking_agent_identifiers
  .ok (mkEl (qname_text premisNS "event") [] none
    ([e.identifier.to_element,
      mkEl (qname_text premisNS "eventType") [] (some e.type),
      mkEl (qname_text premisNS "eventDateTime") [] (some e.date_time)]
      ++ e.event_detail_informations.map EventDetailInformation.to_element
      ++ lais
      ++ e.linking_object_identifiers.map LinkingObjectIdentifier.to_element))

/-- A node handed to one of the `Premis` add-methods.  The Python lists
are untyped: `bag.py` passes an `Agent` to `add_event`, which simply
appends it, so each list holds arbitrary nodes. -/
inductive PNode where
  | obj (o : Object)
  | event (e : Event)
  | agent (a : Agent)

/-- Rendering a `PNode` dispatches to the node's own `to_element`. -/
def PNode.to_element : PNode → Except PyErr Elem
  | .obj o => o.to_element
  | .event e => e.to_element
  | .agent a => a.to_element

/-- `premis.Premis` (premis.py lines 810-851): three append-only lists. -/
structure Premis where
  objects : List PNode := []
  events : List PNode := []
  agents : List PNode := []

/-- `Premis()` constructor: three empty lists. -/
def Premis.new : Premis := {}

/-- `Premis.add_object`: appends to the objects list. -/
def Premis.add_object (p : Premis) (n : PNode) : Premis :=
  { p with objects := p.objects ++ [n] }

/-- `Premis.add_event`: appends to the events list (whatever the node is;
`bag.py` passes an `Agent` here once). -/
def Premis.add_event (p : Premis) (n : PNode) : Premis :=
  { p with events := p.events ++ [n] }

/-- `Premis.add_agent`: appends to the agents list. -/
def Premis.add_agent (p : Premis) (n : PNode) : Premis :=
  { p with agents := p.agents ++ [n] }

/-- `Premis.to_element` (premis.py lines 829-851): the root element with
`version="3.0"`, children rendered from the objects list, then the
events list, then the agents list, each in insertion order. -/
def Premis.to_element (p : Premis) : Except PyErr Elem := do
  let os ← mapExcept PNode.to_element p.objects
  let es ← mapExcept PNode.to_element p.events
  let as ← mapExcept PNode.to_element p.agents
  .ok (mkEl (qname_text premisNS "premis") [("version", "3.0")] none (os ++ es ++ as))

end premis

namespace sidecar

/-- A parsed XML node of the sidecar document: tag, text, children
(attributes are never consulted by `sidecar.py`). -/
structure XNode where
  tag : String
  text : Option String
  children : List XNode

/-- Build an `XNode`. -/
def mkX (tag : String) (text : Option String := none)
    (children : List XNode := []) : XNode :=
  ⟨tag, text, children⟩

/-- `root.findtext(tag)` for a one-segment path: the text of the first
child with that tag (`elem.text or ""` — an element without text yields
`""`), or `None` when no element matches. -/
def findtext1 (root : XNode) (tag : String) : Option String :=
  (root.children.find? (fun n => n.tag == tag)).map (fun n => n.text.getD "")

/-- `root.findtext("t1/t2")` for a two-segment path, in document order. -/
def findtext2 (root : XNode) (t1 t2 : String) : Option String :=
  ((((root.children.filter (fun n => n.tag == t1)).map XNode.children).flatten).find?
      (fun n => n.tag == t2)).map (fun n => n.text.getD "")

/-- `root.findall("t/*")`: all children of all direct children tagged `t`,
in document order. -/
def findallChildren (root : XNode) (t : String) : List XNode :=
  ((root.children.filter (fun n => n.tag == t)).map XNode.children).flatten

/-- Python `dict` assignment `d[k] = v`: updates the entry in place when
the key exists (keeping its position — dict keys are unique, so the
first occurrence is the only one), appends otherwise. -/
def dictSet (d : List (String × Option String)) (k : String) (v : Option String) :
    List (String × Option String) :=
  match d with
  | [] => [(k, v)]
  | p :: rest => if p.1 = k then (p.1, v) :: rest else p :: dictSet rest k v

/-- `sidecar.optional_chain_strip` (sidecar.py lines 10-17). -/
def optional_chain_strip : Option String → Option String
  | none => none
  | some s => some (pyStrip s)

/-- `sidecar.InvalidSidecarException`: a single exception class carrying
only its message. -/
structure InvalidSidecarException where
  msg : String
deriving Repr, DecidableEq

/-- The `Sidecar` object with the fields `Sidecar.__init__` stores. -/
structure Sidecar where
  md5 : String
  cp_id : Option String
  dc_source : Option String
  local_id_filename : Option String
  local_id : Option String
  local_ids : List (String × Option String)
  type_viaa : Option String
  format : Option String
  sp_name : Option String
  sp_id : Option String
  digitization_date : Option String
  digitization_time : Option String
  digitization_note : Option String
  player_manufacturer : Option String
  player_serial_number : Option String
  player_model : Option String
  collection_box_barcode : Option String
  carrier_barcode : Option String
  transport_box_barcode : Option String
  brand : Option String
  batch_id : Option String

/-- The field extraction of `Sidecar.__init__` (sidecar.py lines 41-73)
once the md5 guard has passed. -/
def Sidecar.build (root : XNode) (md5 : String) : Sidecar :=
  { md5 := md5
    cp_id := findtext1 root "CP_id"
    dc_source := findtext1 root "dc_source"
    local_id_filename :=
      let b := findtext2 root "dc_identifier_localids" "Bestandsnaam"
      if truthy b then b else findtext2 root "dc_identifier_localids" "bestandsnaam"
    local_id := findtext1 root "dc_identifier_localid"
    local_ids := (findallChildren root "dc_identifier_localids").foldl
      (fun d n => dictSet d n.tag n.text) []
    type_viaa := findtext1 root "type_viaa"
    format := findtext1 root "format"
    sp_name := findtext1 root "sp_name"
    sp_id := findtext1 root "sp_id"
    digitization_date := findtext1 root "digitization_date"
    digitization_time := findtext1 root "digitization_time"
    digitization_note := findtext1 root "digitization_note"
    player_manufacturer := findtext1 root "player_manufacturer"
    player_serial_number := findtext1 root "player_serial_number"
    player_model := findtext1 root "player_model"
    collection_box_barcode := findtext1 root "collection_box_barcode"
    carrier_barcode := findtext1 root "carrier_barcode"
    transport_box_barcode := findtext1 root "transport_box_barcode"
    brand := findtext1 root "brand"
    batch_id := findtext1 root "batch_id" }

/-- `Sidecar.__init__` (sidecar.py lines 27-73).  The argument is the
outcome of `etree.parse`: `.error e` models an `XMLSyntaxError` with
message `e` (the document is not well-formed), `.ok root` the parsed
tree.  The md5 text is trimmed before the guard, so a pure-whitespace
value counts as missing. -/
def Sidecar.init (parsed : Except String XNode) :
    Except InvalidSidecarException Sidecar :=
  match parsed with
  | .error e => .error ⟨"XML syntax error: '" ++ e ++ "'"⟩
  | .ok root =>
    match optional_chain_strip (findtext1 root "md5") with
    | none => .error ⟨"Missing mandatory key: 'md5'"⟩
    | some m =>
      if m = "" then .error ⟨"Missing mandatory key: 'md5'"⟩
      else .ok (Sidecar.build root m)

/-- `Sidecar.calculate_original_filename` (sidecar.py lines 75-91). -/
def Sidecar.calculate_original_filename (s : Sidecar) : Option String :=
  if truthy s.local_id_filename then s.local_id_filename
  else if truthy s.dc_source then s.dc_source
  else none

/-- `Sidecar.is_xdcam` (sidecar.py lines 93-99). -/
def Sidecar.is_xdcam (s : Sidecar) : Bool :=
  s.format == some "XDCAM"

end sidecar

namespace bag

/-- `bag.EXTENSION_MIMETYPE_MAP` (bag.py lines 51-75), in source order. -/
def EXTENSION_MIMETYPE_MAP : List (String × String) :=
  [(".jpg", "image/jpeg"),
   (".pdf", "application/pdf"),
   (".tiff", "image/tiff"),
   (".tif", "image/tiff"),
   (".mxf", "application/mxf"),
   (".mov", "video/quicktime"),
   (".mp4", "video/mp4"),
   (".mp3", "audio/mpeg"),
   (".wav", "audio/x-wav"),
   (".jp2", "image/jp2"),
   (".jpeg", "image/jpeg"),
   (".mp2", "audio/mpeg"),
   (".mpg", "video/mpeg"),
   (".ogg", "audio/ogg"),
   (".zip", "application/zip"),
   (".ts", "video/MP2T"),
   (".m4v", "video/mp4"),
   (".xml", "application/xml"),
   (".psb", "application/vnd.adobe.photoshop"),
   (".mpeg", "video/mpeg"),
   (".mts", "video/MP2T"),
   (".srt", "text/plain"),
   (".mkv", "video/x-matroska")]

/-- `bag.MIMETYPE_TYPE_MAP` (bag.py lines 77-93), in source order. -/
def MIMETYPE_TYPE_MAP : List (String × String) :=
  [("image/jpeg", "Photographs - Digital"),
   ("image/tiff", "Photographs - Digital"),
   ("image/jp2", "Photographs - Digital"),
   ("audio/mpeg", "Audio - Media-independent (digital)"),
   ("audio/x-wav", "Audio - Media-independent (digital)"),
   ("audio/ogg", "Audio - Media-independent (digital)"),
   ("application/pdf", "Textual works - Digital"),
   ("application/zip", "Collection"),
   ("video/quicktime", "Video - File-based and Physical Media"),
   ("video/mp4", "Video - File-based and Physical Media"),
   ("video/MP2T", "Video - File-based and Physical Media"),
   ("video/mpeg", "Video - File-based and Physical Media"),
   ("application/mxf", "Video - File-based and Physical Media"),
   ("application/vnd.adobe.photoshop", "Photographs - Digital"),
   ("video/x-matroska", "Video - File-based and Physical Media")]

/-- Index of the last occurrence of `c` in the list, if any. -/
def rfindChar (c : Char) : List Char → Option Nat
  | [] => none
  | x :: xs =>
    match rfindChar c xs with
    | some i => some (i + 1)
    | none => if x = c then some 0 else none

/-- The final component of a path string (the part after the last `/`),
i.e. `pathlib.Path(p).name` for the paths occurring here. -/
def pyName (p : String) : String :=
  match rfindChar '/' p.toList with
  | some i => ⟨p.toList.drop (i + 1)⟩
  | none => p

/-- `pathlib.Path.suffix` of a file name: the substring from the last dot
on, but only if that dot is neither the first nor the last character of
the name; otherwise `""`. -/
def pySuffix (name : String) : String :=
  match rfindChar '.' name.toList with
  | none => ""
  | some i => if 0 < i ∧ i + 1 < name.toList.length then ⟨name.toList.drop i⟩ else ""

/-- `pathlib.Path.stem`: the name with its suffix removed. -/
def pyStem (name : String) : String :=
  dropRightStr name (pySuffix name).toList.length

/-- `pathlib.Path.with_suffix(sfx)` applied to a file name: removes the
existing suffix, if any, and appends `sfx`. -/
def pyWithSuffix (name sfx : String) : String :=
  let old := pySuffix name
  if old = "" then name ++ sfx else dropRightStr name old.toList.length ++ sfx

/-- `bag.guess_mimetype` (bag.py lines 96-108): look up the lower-cased
extension of the path's final component; an unknown extension yields
`None` (the `KeyError` branch), never an error. -/
def guess_mimetype (file : String) : Option String :=
  EXTENSION_MIMETYPE_MAP.lookup (lowerStr (pySuffix (pyName file)))

/-- `bag.calculate_sip_type` (bag.py lines 111-123): look the mimetype up
in `MIMETYPE_TYPE_MAP`; any other value — including `None`, which
`bag.py` passes when the extension is unknown — takes the `KeyError`
branch and yields `"OTHER"`. -/
def calculate_sip_type (mimetype : Option String) : String :=
  match mimetype.bind (fun m => MIMETYPE_TYPE_MAP.lookup m) with
  | some t => t
  | none => "OTHER"

/-- The on-disk metadata of one file: its streaming MD5 digest
(`bag.md5`, bag.py lines 126-139), its size and its creation time. -/
structure FileMeta where
  md5 : String
  size : Nat
  ctime : Nat
deriving Repr, DecidableEq

/-- The file system visible to the pipeline: path → metadata. -/
def FS := List (String × FileMeta)

/-- `path.stat()` / opening the file: metadata, or `FileNotFoundError`. -/
def statFs (fs : FS) (p : String) : Except PyErr FileMeta :=
  match List.lookup p fs with
  | some m => .ok m
  | none => .error (.fileNotFound p)

/-- `Path(a, b)` / `a.joinpath(b)`. -/
def pjoin (a b : String) : String := a ++ "/" ++ b

end bag

namespace mets

/-- Modelled from the spec: `app/helpers/mets.py` is not among the
provided sources.  §4.3 describes a shared node-tree builder of typed
nodes; `FileType` distinguishes file entries from directory groups. -/
inductive FileType where
  | FILE
  | DIRECTORY
deriving Repr, DecidableEq

/-- Modelled from the spec: the METS file/directory node of §4.3.  It is
a passive record of the keyword arguments the `bag.py` call sites pass
(checksum, size, mimetype, created timestamp, path, …) plus an ordered
child list; rendering to markup is out of scope for the claims below,
which concern the attributes stored on each node. -/
structure File where
  file_type : FileType
  use : Option String
  label : Option String
  mimetype : Option String
  path : Option String
  size : Option Nat
  checksum : Option String
  created : Option Nat
  is_mets : Bool
  children : List File

/-- Build a `File` node (keyword arguments default to absent). -/
def mkFile (file_type : FileType) (use : Option String := none)
    (label : Option String := none) (mimetype : Option String := none)
    (path : Option String := none) (size : Option Nat := none)
    (checksum : Option String := none) (created : Option Nat := none)
    (is_mets : Bool := false) (children : List File := []) : File :=
  ⟨file_type, use, label, mimetype, path, size, checksum, created, is_mets, children⟩

/-- `File.add_child`: appends. -/
def File.add_child (f c : File) : File :=
  { f with children := f.children ++ [c] }

/-- Modelled from the spec: the `METSDocSIP` document — package-level or
representation-level — collecting agents (not needed for the claims
below), a file tree, and the dmdSec/amdSec references. -/
structure METSDocSIP where
  is_package_mets : Bool
  type : String
  files : List File
  dmdsecs : List File
  amdsecs : List File

/-- `METSDocSIP(...)` constructor. -/
def METSDocSIP.new (is_package_mets : Bool) (type : String) : METSDocSIP :=
  ⟨is_package_mets, type, [], [], []⟩

/-- `METSDocSIP.add_file`: appends a root-level file node. -/
def METSDocSIP.add_file (d : METSDocSIP) (f : File) : METSDocSIP :=
  { d with files := d.files ++ [f] }

/-- `METSDocSIP.add_dmdsec`: appends. -/
def METSDocSIP.add_dmdsec (d : METSDocSIP) (f : File) : METSDocSIP :=
  { d with dmdsecs := d.dmdsecs ++ [f] }

/-- `METSDocSIP.add_amdsec`: appends. -/
def METSDocSIP.add_amdsec (d : METSDocSIP) (f : File) : METSDocSIP :=
  { d with amdsecs := d.amdsecs ++ [f] }

end mets

namespace bag

/-- `Optional[str]` → dynamic text value, for the sidecar fields `bag.py`
hands to the premis constructors. -/
def pyOfOpt : Option String → PyTextVal
  | none => .noneVal
  | some s => .str s

/-- The collateral `for` loop of `Bag._create_representation_mets`
(bag.py lines 364-380): one `File` entry per collateral, checksum
computed from the file on disk, `path` the absolute path (`bag.py`
passes `str(collateral_path)`, not the relative path). -/
def collateralMetsLoop (fs : FS) (sip_root_folder representation_path : String) :
    List String → Except PyErr (List mets.File)
  | [] => .ok []
  | n :: ns => do
    let collateral_path_rel := pjoin (pjoin representation_path "data") n
    let collateral_path := pjoin sip_root_folder collateral_path_rel
    let meta ← statFs fs collateral_path
    let collateral_file := mets.mkFile .FILE (some "data") (some "data")
      (guess_mimetype collateral_path) (some collateral_path)
      (some meta.size) (some meta.md5) (some meta.ctime)
    let rest ← collateralMetsLoop fs sip_root_folder representation_path ns
    .ok (collateral_file :: rest)

/-- `Bag._create_representation_mets` (bag.py lines 288-392).  `fs` gives
the on-disk files at render time; `essence_path` is the essence's source
location (used for the SIP type and for the copied file's name);
`sidecar_md5` is the digest declared in the sidecar. -/
def _create_representation_mets (fs : FS) (sip_root_folder : String)
    (essence_path : String) (collateral_paths : List String)
    (sidecar_md5 : String) : Except PyErr mets.METSDocSIP := do
  let doc := mets.METSDocSIP.new false (calculate_sip_type (guess_mimetype essence_path))
  let essence_file_name := pyName essence_path
  let collaterals_file_names := collateral_paths.map pyName
  let metadata_folder := mets.mkFile .DIRECTORY (some "metadata") (some "metadata")
  let metadata_desc_folder := mets.mkFile .DIRECTORY
    (some "metadata/descriptive") (some "descriptive")
  let metadata_preserv_folder := mets.mkFile .DIRECTORY
    (some "metadata/preservation") (some "preservation")
  let data_folder := mets.mkFile .DIRECTORY (some "data") (some "data")
  let representation_path := pjoin "representations" "representation_1"
  let pres_path_rel := pjoin (pjoin (pjoin representation_path "metadata") "preservation") "premis.xml"
  let pres_path := pjoin sip_root_folder pres_path_rel
  let presMeta ← statFs fs pres_path
  let pres_file := mets.mkFile .FILE (some "preservation") (some "preservation")
    (guess_mimetype pres_path) (some pres_path_rel)
    (some presMeta.size) (some presMeta.md5) (some presMeta.ctime)
  let metadata_preserv_folder := metadata_preserv_folder.add_child pres_file
  let data_path_rel := pjoin (pjoin representation_path "data") essence_file_name
  let data_path := pjoin sip_root_folder data_path_rel
  let essMeta ← statFs fs data_path
  let data_file := mets.mkFile .FILE (some "data") (some "data")
    (guess_mimetype data_path) (some data_path_rel)
    (some essMeta.size) (some sidecar_md5) (some essMeta.ctime)
  let data_folder := data_folder.add_child data_file
  let collats ← collateralMetsLoop fs sip_root_folder representation_path collaterals_file_names
  let data_folder := collats.foldl mets.File.add_child data_folder
  let metadata_folder := metadata_folder.add_child metadata_desc_folder
  let metadata_folder := metadata_folder.add_child metadata_preserv_folder
  let doc := doc.add_file metadata_folder
  let doc := doc.add_file data_folder
  let doc := doc.add_amdsec pres_file
  .ok doc

/-- `Bag._write_preservation_metadata_ie` (bag.py lines 404-527).  The
three uuids the function draws from `generate_uuid()` — the player-agent
uuid, the XDCAM representation-object uuid and the event uuid — are
passed in so the embedding stays deterministic.  Returns the rendered
IE-level PREMIS element. -/
def _write_preservation_metadata_ie (sc : sidecar.Sidecar)
    (ie_uuid rep_uuid : String)
    (player_agent_uuid premis_object_rep_uuid event_uuid : String) :
    Except PyErr Elem := do
  let premis_element := premis.Premis.new
  let premis_object_element_ie : premis.Object :=
    { type := premis.ObjectType.IE, identifiers := [⟨"uuid", .str ie_uuid⟩] }
  let premis_object_element_ie :=
    premis_object_element_ie.add_identifier ⟨"local_id", pyOfOpt sc.local_id⟩
  let premis_object_element_ie := sc.local_ids.foldl
    (fun o tv =>
      if tv.1 ≠ "bestandsnaam" ∧ tv.1 ≠ "Bestandsnaam" then
        o.add_identifier ⟨tv.1, pyOfOpt tv.2⟩
      else o)
    premis_object_element_ie
  let stRepBy ← premis.getRelationshipSubtype "REPRESENTED_BY"
  let premis_object_element_ie :=
    premis_object_element_ie.add_relationship ⟨stRepBy, .strList [rep_uuid]⟩
  let premis_element := premis_element.add_object (.obj premis_object_element_ie)
  let premis_element ←
    if sc.is_xdcam then do
      let premis_object_element_rep : premis.Object :=
        { type := premis.ObjectType.REPRESENTATION
          identifiers := [⟨"uuid", .str premis_object_rep_uuid⟩]
          storages := [⟨"XDCAM"⟩] }
      let premis_element := premis_element.add_object (.obj premis_object_element_rep)
      let premis_event : premis.Event :=
        { identifier := ⟨"UUID", event_uuid⟩
          type := "DIGITIZATION"
          date_time := pyFStr sc.digitization_date ++ "T" ++ pyFStr sc.digitization_time
          event_detail_informations := [⟨sc.digitization_note⟩]
          linking_agent_identifiers :=
            [{ type := "VIAA SP Agent ID", value := pyOfOpt sc.sp_id
               roles := [{ role := "implementer"
                           value_uri := "http://id.loc.gov/vocabulary/preservation/eventRelatedAgentRole/imp" }] },
             { type := "UUID", value := .str player_agent_uuid
               roles := [{ role := "player" }] }]
          linking_object_identifiers :=
            [{ type := "UUID", value := rep_uuid
               roles := [{ role := "outcome"
                           value_uri := "http://id.loc.gov/vocabulary/preservation/eventRelatedObjectRole/out" }] },
             { type := "UUID", value := premis_object_rep_uuid
               roles := [{ role := "source"
                           value_uri := "http://id.loc.gov/vocabulary/preservation/eventRelatedObjectRole/out" }] }] }
      let premis_element := premis_element.add_event (.event premis_event)
      let premis_agent_sp : premis.Agent :=
        { identifiers := [⟨"VIAA SP Agent ID", pyOfOpt sc.sp_id⟩]
          type := some "SP Agent"
          name := sc.sp_name }
      -- bag.py line 506: the SP agent is handed to add_event, not add_agent
      let premis_element := premis_element.add_event (.agent premis_agent_sp)
      let premis_agent_type_extension : premis.AgentExtension :=
        { model := sc.player_model
          brand_name := sc.player_manufacturer
          serial_number := sc.player_serial_number }
      let premis_agent_type : premis.Agent :=
        { identifiers := [⟨"UUID", .str player_agent_uuid⟩]
          type := some "player"
          name := some (pyFStr sc.player_manufacturer ++ " " ++ pyFStr sc.player_model)
          extension := some premis_agent_type_extension }
      pure (premis_element.add_agent (.agent premis_agent_type))
    else pure premis_element
  premis_element.to_element

/-- The collateral `for` loop of
`Bag._write_preservation_metadata_representation` (bag.py 597-621): one
FILE object per collateral (uuid, bare file name, fresh digest of the
file), INCLUDED_IN the representation and REQUIRES the primary file. -/
def collateralPremisLoop (rep_uuid file_uuid : String) (pe : premis.Premis) :
    List (String × String × String) → Except PyErr premis.Premis
  | [] => .ok pe
  | (uuid, nm, digest) :: rest => do
    let c : premis.Object :=
      { type := premis.ObjectType.FILE
        identifiers := [⟨"uuid", .str uuid⟩]
        original_name := some ⟨nm⟩
        fixity := some ⟨digest⟩ }
    let stIn ← premis.getRelationshipSubtype "INCLUDED_IN"
    let c := c.add_relationship ⟨stIn, .strList [rep_uuid]⟩
    let stReq ← premis.getRelationshipSubtype "REQUIRES"
    let c := c.add_relationship ⟨stReq, .strList [file_uuid]⟩
    collateralPremisLoop rep_uuid file_uuid (pe.add_object (.obj c)) rest

/-- `Bag._write_preservation_metadata_representation` (bag.py lines
529-626).  `collaterals` carries, per collateral, the uuid allocated in
`create_sip_bag`, the bare file name, and the streaming MD5 digest of
the file on disk (`Fixity(md5(path))`).  Returns the rendered
representation-level PREMIS element. -/
def _write_preservation_metadata_representation (sc : sidecar.Sidecar)
    (essence_name : String) (rep_uuid file_uuid ie_uuid : String)
    (collaterals : List (String × String × String)) : Except PyErr Elem := do
  let premis_element := premis.Premis.new
  let premis_object_element_rep : premis.Object :=
    { type := premis.ObjectType.REPRESENTATION
      identifiers := [⟨"uuid", .str rep_uuid⟩] }
  let stInc ← premis.getRelationshipSubtype "INCLUDES"
  let premis_object_element_rep := premis_object_element_rep.add_relationship
    ⟨stInc, .strList (file_uuid :: collaterals.map (fun c => c.1))⟩
  let stRepr ← premis.getRelationshipSubtype "REPRESENTS"
  let premis_object_element_rep := premis_object_element_rep.add_relationship
    ⟨stRepr, .strList [ie_uuid]⟩
  let original_name :=
    match sc.calculate_original_filename with
    | some n => if n = "" then essence_name else n
    | none => essence_name
  let premis_element := premis_element.add_object (.obj premis_object_element_rep)
  let premis_object_element_file : premis.Object :=
    { type := premis.ObjectType.FILE
      identifiers := [⟨"uuid", .str file_uuid⟩]
      original_name := some ⟨original_name⟩
      fixity := some ⟨sc.md5⟩ }
  let stIncIn ← premis.getRelationshipSubtype "INCLUDED_IN"
  let premis_object_element_file := premis_object_element_file.add_relationship
    ⟨stIncIn, .strList [rep_uuid]⟩
  let premis_object_element_file ←
    if collaterals ≠ [] then do
      let stIsReq ← premis.getRelationshipSubtype "IS_REQUIRED_BY"
      pure (premis_object_element_file.add_relationship
        ⟨stIsReq, .strList (collaterals.map (fun c => c.1))⟩)
    else pure premis_object_element_file
  let premis_element := premis_element.add_object (.obj premis_object_element_file)
  let premis_element ← collateralPremisLoop rep_uuid file_uuid premis_element collaterals
  premis_element.to_element

/-- The outcome of the final stage of `Bag.create_sip_bag` (bag.py lines
763-772): the name of the zip archive, its entries (arcnames), and the
directory removed by `shutil.rmtree`. -/
structure BagZipOutcome where
  bag_path_name : String
  entries : List (List String)
  removed_root : List String
deriving Repr, DecidableEq

/-- The archive/cleanup tail of `Bag.create_sip_bag` (bag.py lines
674-772, archive part): the working directory is
`Path(essence_path.parent, essence_path.stem)`, the archive is
`root_folder.with_suffix(".bag.zip")`, each path under the root is
written with `arcname = file_path.relative_to(root_folder)`, and the
root folder is removed afterwards.  `tree` lists the absolute paths
(as component lists) that `root_folder.rglob("*")` yields. -/
def create_sip_bag_zip (essence_parent : List String) (essence_name : String)
    (tree : List (List String)) : BagZipOutcome :=
  let root_folder := essence_parent ++ [pyStem essence_name]
  { bag_path_name := pyWithSuffix (pyStem essence_name) ".bag.zip"
    entries := tree.filterMap
      (fun p => if root_folder.isPrefixOf p then some (p.drop root_folder.length) else none)
    removed_root := root_folder }

end bag

namespace app

/-- Python `dict` assignment for a string-valued payload dictionary:
update in place when the key exists, append otherwise. -/
def dictSetS (d : List (String × String)) (k v : String) : List (String × String) :=
  match d with
  | [] => [(k, v)]
  | p :: rest => if p.1 = k then (p.1, v) :: rest else p :: dictSetS rest k v

/-- Whether `pat` occurs as a contiguous run inside `s`. -/
def listHasSub (pat : List Char) : List Char → Bool
  | [] => pat.isEmpty
  | c :: cs => pat.isPrefixOf (c :: cs) || listHasSub pat cs

/-- `re.match("data/representations/.*/data/.*", path)` from `app.py`
line 149: anchored at the start, so the path matches exactly when it
starts with `data/representations/` and the remainder contains `/data/`
(manifest paths contain no newline, so `.` is unrestricted). -/
def regex_match_essence (s : String) : Bool :=
  "data/representations/".toList.isPrefixOf s.toList
    && listHasSub "/data/".toList (s.toList.drop "data/representations/".toList.length)

/-- A side effect the worker requests: publish an event (outcome plus
payload), ack/nack the queue message, or remove a file.  The embedded
tail of `do_work` never issues `removeFile` — the archive is retained. -/
inductive AppAction where
  | sendEvent (outcome : String) (payload : List (String × String))
  | ack
  | nack (requeue : Bool)
  | removeFile (path : String)
deriving Repr, DecidableEq

/-- The payload updates of app.py lines 155-167: batch id and local id
when truthy, the sidecar-declared digest, archive path and size, and the
manifest digest. -/
def reconcileData (sc : sidecar.Sidecar) (data0 : List (String × String))
    (bag_path : String) (bag_filesize : Nat)
    (md5_hash_essence_manifest : String) : List (String × String) :=
  let data := if truthy sc.batch_id then dictSetS data0 "batch_id" (pyFStr sc.batch_id) else data0
  let data := if truthy sc.local_id then dictSetS data "local_id" (pyFStr sc.local_id) else data
  let data := dictSetS data "md5_hash_essence_sidecar" sc.md5
  let data := dictSetS data "path" bag_path
  let data := dictSetS data "bag_filesize" (toString bag_filesize)
  dictSetS data "md5_hash_essence_manifest" md5_hash_essence_manifest

/-- The failure-event payload (`send_failed_pulsar_message`, app.py lines
77-84, applied at line 176). -/
def failPayload (sc : sidecar.Sidecar) (data0 : List (String × String))
    (bag_path : String) (bag_filesize : Nat)
    (md5_hash_essence_manifest : String) : List (String × String) :=
  dictSetS (dictSetS (reconcileData sc data0 bag_path bag_filesize md5_hash_essence_manifest)
      "outcome" "fail")
    "message" "Supplied MD5 differs from the calculated MD5."

/-- The success-event payload (app.py lines 182-183). -/
def successPayload (sc : sidecar.Sidecar) (data0 : List (String × String))
    (bag_path : String) (bag_filesize : Nat)
    (md5_hash_essence_manifest : String) : List (String × String) :=
  dictSetS (dictSetS (reconcileData sc data0 bag_path bag_filesize md5_hash_essence_manifest)
      "outcome" "success")
    "message" ("SIP created: '" ++ bag_path ++ "'")

/-- The outcome decision of the `do_work` tail (app.py lines 169-191),
once the manifest digest has been selected: compare it with the
lower-cased sidecar digest; on mismatch a failure event plus nack,
otherwise a success event plus ack.  Neither branch performs a
file-system operation — the archive is retained. -/
def do_work_finish (sc : sidecar.Sidecar) (data0 : List (String × String))
    (bag_path : String) (bag_filesize : Nat)
    (md5_hash_essence_manifest : String) : List AppAction :=
  if md5_hash_essence_manifest ≠ lowerStr sc.md5 then
    [.sendEvent "fail" (failPayload sc data0 bag_path bag_filesize md5_hash_essence_manifest),
     .nack false]
  else
    [.sendEvent "success" (successPayload sc data0 bag_path bag_filesize md5_hash_essence_manifest),
     .ack]

/-- The post-archival tail of `EventListener.do_work` (app.py lines
148-191), entered once `create_sip_bag` has returned: scan the bag
manifest `entries` (path → md5, in manifest order), keeping the digest
of the *last* entry matching the representation-data pattern — with
collaterals present this entry need not be the essence's — then finish
with `do_work_finish`.  If no entry matched, the read of the
never-assigned loop variable raises `NameError`. -/
def do_work_reconcile (entries : List (String × String)) (sc : sidecar.Sidecar)
    (data0 : List (String × String)) (bag_path : String) (bag_filesize : Nat) :
    Except PyErr (List AppAction) :=
  match (entries.filter (fun e => regex_match_essence e.1)).getLast? with
  | some e => .ok (do_work_finish sc data0 bag_path bag_filesize e.2)
  | none => .error (.nameError "md5_hash_essence_manifest")

end app

/-- One call to a `Premis` add-method, used to study how the placement of
a node in the rendered document depends on the method that received it. -/
inductive AddOp where
  | addObject (n : premis.PNode)
  | addEvent (n : premis.PNode)
  | addAgent (n : premis.PNode)

/-- Apply one add-method call. -/
def applyAdd (p : premis.Premis) : AddOp → premis.Premis
  | .addObject n => p.add_object n
  | .addEvent n => p.add_event n
  | .addAgent n => p.add_agent n

/-- The nodes a sequence of calls handed to `add_object`, in order. -/
def opsObjects (ops : List AddOp) : List premis.PNode :=
  ops.filterMap (fun o => match o with | .addObject n => some n | _ => none)

/-- The nodes a sequence of calls handed to `add_event`, in order. -/
def opsEvents (ops : List AddOp) : List premis.PNode :=
  ops.filterMap (fun o => match o with | .addEvent n => some n | _ => none)

/-- The nodes a sequence of calls handed to `add_agent`, in order. -/
def opsAgents (ops : List AddOp) : List premis.PNode :=
  ops.filterMap (fun o => match o with | .addAgent n => some n | _ => none)

/-- A concrete sidecar record as `Sidecar.__init__` produces for an XDCAM
sidecar that declares player model, manufacturer and serial number. -/
def scXdcam : sidecar.Sidecar :=
  { md5 := "cafebabecafebabecafebabecafebabe"
    cp_id := some "OR-test"
    dc_source := none
    local_id_filename := none
    local_id := some "local-1"
    local_ids := []
    type_viaa := some "video"
    format := some "XDCAM"
    sp_name := some "SONY SP"
    sp_id := some "SP-77"
    digitization_date := some "2022-01-01"
    digitization_time := some "10:00:00"
    digitization_note := some "digitized from disc"
    player_manufacturer := some "Sony"
    player_serial_number := some "SN-123"
    player_model := some "PDW-U2"
    collection_box_barcode := none
    carrier_barcode := none
    transport_box_barcode := none
    brand := none
    batch_id := some "BATCH-1" }

/-- A concrete non-XDCAM sidecar record. -/
def scPlain : sidecar.Sidecar :=
  { scXdcam with
    format := some "Betacam"
    sp_name := some "TAPE" }

/-- A parsed sidecar document holding both `Bestandsnaam` and
`bestandsnaam` entries in the local-identifier group. -/
def docBothNames : sidecar.XNode :=
  sidecar.mkX "VIAA" none
    [sidecar.mkX "md5" (some "abcdefabcdefabcdefabcdefabcdefab"),
     sidecar.mkX "dc_source" (some "source.mxf"),
     sidecar.mkX "dc_identifier_localids" none
       [sidecar.mkX "bestandsnaam" (some "lowercase.mxf"),
        sidecar.mkX "Bestandsnaam" (some "CAPITALIZED.mxf")]]

/-- A parsed sidecar document with a whitespace-padded md5 value. -/
def docTrimMd5 : sidecar.XNode :=
  sidecar.mkX "VIAA" none
    [sidecar.mkX "md5" (some "  abcdefabcdefabcdefabcdefabcdefab  ")]

/-- The bag-manifest entries of a run with one essence and one collateral
file, the collateral listed after the essence, as used for claim C8:
the essence's manifest digest (`"aaa"`) equals the lower-cased sidecar
digest, the collateral's (`"bbb"`) does not. -/
def entriesC8 : List (String × String) :=
  [("data/mets.xml", "111"),
   ("data/representations/representation_1/data/a.mxf", "aaa"),
   ("data/representations/representation_1/data/b.srt", "bbb")]

/-- The sidecar of the C8 scenario: its digest is the essence digest in
upper case. -/
def scC8 : sidecar.Sidecar :=
  { scPlain with md5 := "AAA", batch_id := none, local_id := none }

/-- The file system of the C7 witness run: the representation-level
preservation file, the copied essence (whose on-disk digest `deadbeef`
differs from the sidecar-declared digest `cafebabe`), and one copied
collateral. -/
def fs7 : bag.FS :=
  [("/w/essence/representations/representation_1/metadata/preservation/premis.xml",
    { md5 := "p1p1", size := 10, ctime := 1 }),
   ("/w/essence/representations/representation_1/data/essence.mxf",
    { md5 := "deadbeef", size := 20, ctime := 2 }),
   ("/w/essence/representations/representation_1/data/sub.srt",
    { md5 := "c0ffee", size := 5, ctime := 3 })]

/-- The sidecar of the C8 witness run: digest in upper case, matching the
manifest digest after lower-casing. -/
def scC8ok : sidecar.Sidecar :=
  { scC8 with md5 := "ABC" }

/-- An object node that renders successfully (no relationships). -/
def objPlain : premis.Object :=
  { type := premis.ObjectType.IE, identifiers := [⟨"uuid", .str "o-1"⟩] }

/-- An event node that renders successfully. -/
def evPlain : premis.Event :=
  { identifier := ⟨"UUID", "e-1"⟩, type := "CHECK", date_time := "2022-01-01T00:00:00" }

/-- An agent node that renders successfully. -/
def agPlain : premis.Agent :=
  { identifiers := [⟨"UUID", .str "a-1"⟩] }

/-- A concrete interleaving of add-method calls: agent first, then
object, then event — the rendered output must nevertheless group the
object first, then the event, then the agent. -/
def opsC10 : List AddOp :=
  [.addAgent (.agent agPlain), .addObject (.obj objPlain), .addEvent (.event evPlain)]

theorem pyBindOk (a : α) (f : α → Except PyErr β) :
    (bind (Except.ok a) f : Except PyErr β) = f a := rfl

theorem pyBindError (e : PyErr) (f : α → Except PyErr β) :
    (bind (Except.error e) f : Except PyErr β) = Except.error e := rfl

theorem pyPureEq (a : α) : (pure a : Except PyErr α) = Except.ok a := rfl

/-- C1.  The claim asserts the representation-level PREMIS document for a
run with two collaterals contains an IS_REQUIRED_BY relationship on the
primary-file object and a REQUIRES relationship on each collateral
object.  The code cannot produce it: `bag.py` lines 588-589 access
`RelationshipSubtype.IS_REQUIRED_BY`, a member the enum in `premis.py`
(lines 24-28) does not define, so as soon as the collateral branch is
taken the writer raises `AttributeError` and no document is written. -/
theorem C1_representation_premis_two_collaterals_raises :
    bag._write_preservation_metadata_representation scPlain "essence.mxf"
        "rep-uuid-1" "file-uuid-1" "ie-uuid-1"
        [("col-uuid-1", "sub1.srt", "d1d1"), ("col-uuid-2", "sub2.srt", "d2d2")]
      = .error (.attributeError
          "type object RelationshipSubtype has no attribute IS_REQUIRED_BY") := by
  rfl

/-- C2.  The claim asserts the IE-level PREMIS document of an XDCAM
sidecar contains a DIGITIZATION event and two agents.  The code cannot
emit that document: the IE object's REPRESENTED_BY relationship is
constructed with the uuid *list* `[rep_uuid]` (bag.py lines 423-425)
while `premis.Relationship` renders a single related-object-identifier
whose text is that value, and lxml raises `TypeError` on a list, so
`to_element` fails for XDCAM and non-XDCAM sidecars alike and no
IE-level document is ever written. -/
theorem C2_ie_premis_xdcam_raises :
    bag._write_preservation_metadata_ie scXdcam "ie-uuid-1" "rep-uuid-1"
        "player-agent-uuid" "rep-object-uuid" "event-uuid"
      = .error (.typeError "Argument must be bytes or unicode, got list") ∧
    bag._write_preservation_metadata_ie scPlain "ie-uuid-1" "rep-uuid-1"
        "player-agent-uuid" "rep-object-uuid" "event-uuid"
      = .error (.typeError "Argument must be bytes or unicode, got list") :=
  ⟨rfl, rfl⟩

/-- C3.  Every relationship node rendered by `Relationship.to_element`
carries, on its relationshipSubtype child, the Library of Congress
valueURI whose suffix is "inc" for INCLUDES, "isr" for REPRESENTED_BY,
"rep" for REPRESENTS, and "isi" for INCLUDED_IN. -/
theorem C3_relationship_subtype_value_uri
    (st : premis.RelationshipSubtype) (u : String) :
    ∃ e, premis.Relationship.to_element { subtype := st, uuid := .str u } = .ok e ∧
      e.children[1]?.map Elem.attrs = some
        [("authority", "relationshipSubType"),
         ("authorityURI", "http://id.loc.gov/vocabulary/preservation/relationshipSubType"),
         ("valueURI", "http://id.loc.gov/vocabulary/preservation/relationshipSubType/" ++
            (match st with
             | .INCLUDES => "inc"
             | .REPRESENTED_BY => "isr"
             | .REPRESENTS => "rep"
             | .INCLUDED_IN => "isi"))] := by
  cases st <;> exact ⟨_, rfl, rfl⟩

/-- C4.  Sidecar parsing fails with the malformed-document error exactly
when the input is not well-formed XML; fails with the
missing-mandatory-field error exactly when the md5 field is absent or
blank after trimming; and otherwise succeeds with the trimmed md5
stored — the success branch depends on no other field, so no other
field's absence can cause a failure. -/
theorem C4_sidecar_parse_validation (parsed : Except String sidecar.XNode) :
    (∀ e, parsed = .error e →
       sidecar.Sidecar.init parsed = .error ⟨"XML syntax error: '" ++ e ++ "'"⟩) ∧
    (∀ root, parsed = .ok root →
       (sidecar.Sidecar.init parsed = .error ⟨"Missing mandatory key: 'md5'"⟩ ↔
         truthy (sidecar.optional_chain_strip (sidecar.findtext1 root "md5")) = false)) ∧
    (∀ root m, parsed = .ok root →
       sidecar.optional_chain_strip (sidecar.findtext1 root "md5") = some m →
       m ≠ "" →
       sidecar.Sidecar.init parsed = .ok (sidecar.Sidecar.build root m)) := by
  refine ⟨?_, ?_, ?_⟩
  · rintro e rfl
    rfl
  · rintro root rfl
    show (match sidecar.optional_chain_strip (sidecar.findtext1 root "md5") with
      | none => Except.error (⟨"Missing mandatory key: 'md5'"⟩ : sidecar.InvalidSidecarException)
      | some m =>
        if m = "" then Except.error ⟨"Missing mandatory key: 'md5'"⟩
        else Except.ok (sidecar.Sidecar.build root m)) =
        Except.error ⟨"Missing mandatory key: 'md5'"⟩ ↔ _
    rcases hm : sidecar.optional_chain_strip (sidecar.findtext1 root "md5") with _ | m
    · simp [truthy]
    · by_cases hmm : m = "" <;> simp [hmm, truthy]
  · rintro root m rfl hm hne
    show (match sidecar.optional_chain_strip (sidecar.findtext1 root "md5") with
      | none => Except.error (⟨"Missing mandatory key: 'md5'"⟩ : sidecar.InvalidSidecarException)
      | some m =>
        if m = "" then Except.error ⟨"Missing mandatory key: 'md5'"⟩
        else Except.ok (sidecar.Sidecar.build root m)) = _
    rw [hm]
    simp [hne]

/-- C4 witness: a document whose md5 text carries surrounding whitespace
parses successfully and stores the trimmed digest. -/
theorem C4_witness_sidecar_parse :
    sidecar.Sidecar.init (.ok docTrimMd5)
      = .ok (sidecar.Sidecar.build docTrimMd5 "abcdefabcdefabcdefabcdefabcdefab") :=
  (C4_sidecar_parse_validation (.ok docTrimMd5)).2.2 docTrimMd5
    "abcdefabcdefabcdefabcdefabcdefab" rfl (by decide) (by decide)

/-- C5.  For every successfully parsed sidecar, the original filename is
the first truthy value among the local-identifier "Bestandsnaam" entry,
the local-identifier "bestandsnaam" entry, and `dc_source`; otherwise
none.  In particular the capitalized entry wins when both are present. -/
theorem C5_original_filename_priority (root : sidecar.XNode) (s : sidecar.Sidecar)
    (h : sidecar.Sidecar.init (.ok root) = .ok s) :
    s.calculate_original_filename =
      (if truthy (sidecar.findtext2 root "dc_identifier_localids" "Bestandsnaam") then
        sidecar.findtext2 root "dc_identifier_localids" "Bestandsnaam"
       else if truthy (sidecar.findtext2 root "dc_identifier_localids" "bestandsnaam") then
        sidecar.findtext2 root "dc_identifier_localids" "bestandsnaam"
       else if truthy (sidecar.findtext1 root "dc_source") then
        sidecar.findtext1 root "dc_source"
       else none) := by
  have h' : (match sidecar.optional_chain_strip (sidecar.findtext1 root "md5") with
      | none => Except.error (⟨"Missing mandatory key: 'md5'"⟩ : sidecar.InvalidSidecarException)
      | some m =>
        if m = "" then Except.error ⟨"Missing mandatory key: 'md5'"⟩
        else Except.ok (sidecar.Sidecar.build root m)) = Except.ok s := h
  rcases hm : sidecar.optional_chain_strip (sidecar.findtext1 root "md5") with _ | m
  · rw [hm] at h'
    cases h'
  · rw [hm] at h'
    by_cases hmm : m = ""
    · simp [hmm] at h'
    · simp only [hmm, if_false, Except.ok.injEq] at h'
      subst h'
      simp only [sidecar.Sidecar.calculate_original_filename, sidecar.Sidecar.build]
      split_ifs <;> simp_all

/-- C5 witness: with both "Bestandsnaam" and "bestandsnaam" entries
present, the capitalized entry's value is returned. -/
theorem C5_witness_capitalized_wins :
    (sidecar.Sidecar.build docBothNames
        "abcdefabcdefabcdefabcdefabcdefab").calculate_original_filename
      = some "CAPITALIZED.mxf" := by
  rw [C5_original_filename_priority docBothNames
    (sidecar.Sidecar.build docBothNames "abcdefabcdefabcdefabcdefabcdefab") rfl]
  decide

/-- C6.  `guess_mimetype` is total and case-insensitive on the extension:
its result depends only on the lower-cased suffix of the path's final
component (so any letter case of a known extension yields the table's
mimetype), an extension outside the table yields none rather than an
error, and every table entry round-trips in lower and upper case;
`calculate_sip_type` yields the documented label for every mimetype of
the classification table and "OTHER" for anything else, including
none. -/
theorem C6_mimetype_and_sip_type_tables :
    (∀ f g : String,
       lowerStr (bag.pySuffix (bag.pyName f)) = lowerStr (bag.pySuffix (bag.pyName g)) →
       bag.guess_mimetype f = bag.guess_mimetype g) ∧
    (∀ f : String,
       bag.EXTENSION_MIMETYPE_MAP.lookup (lowerStr (bag.pySuffix (bag.pyName f))) = none →
       bag.guess_mimetype f = none) ∧
    bag.EXTENSION_MIMETYPE_MAP.all
      (fun p => bag.guess_mimetype ("file" ++ p.1) == some p.2
        && bag.guess_mimetype ("file" ++ upperStr p.1) == some p.2) = true ∧
    bag.guess_mimetype "file.unknown" = none ∧
    bag.MIMETYPE_TYPE_MAP.all
      (fun p => bag.calculate_sip_type (some p.1) == p.2) = true ∧
    (∀ x : Option String,
       (x.bind fun m => bag.MIMETYPE_TYPE_MAP.lookup m) = none →
       bag.calculate_sip_type x = "OTHER") ∧
    bag.calculate_sip_type none = "OTHER" := by
  refine ⟨?_, ?_, by decide, by decide, by decide, ?_, rfl⟩
  · intro f g h
    unfold bag.guess_mimetype
    rw [h]
  · intro f h
    unfold bag.guess_mimetype
    exact h
  · intro x h
    simp [bag.calculate_sip_type, h]

/-- C6 witness: a mixed-case known extension agrees with its lower-case
form, an unknown extension yields none, and a mimetype outside the
classification table (text/plain is in the extension table's range but
not in the classification table) yields "OTHER". -/
theorem C6_witness_tables :
    bag.guess_mimetype "clip.MxF" = bag.guess_mimetype "other.mxf" ∧
    bag.guess_mimetype "clip.xyz" = none ∧
    bag.calculate_sip_type (some "text/plain") = "OTHER" :=
  ⟨C6_mimetype_and_sip_type_tables.1 "clip.MxF" "other.mxf" (by decide),
   C6_mimetype_and_sip_type_tables.2.1 "clip.xyz" (by decide),
   C6_mimetype_and_sip_type_tables.2.2.2.2.2.1 (some "text/plain") (by decide)⟩

theorem foldl_add_child_children (fs : List mets.File) (f : mets.File) :
    (fs.foldl mets.File.add_child f).children = f.children ++ fs := by
  induction fs generalizing f with
  | nil => simp
  | cons c cs ih => simp [mets.File.add_child, ih]

theorem collateralMetsLoop_checksums (fs : bag.FS) (root rp : String)
    (ns : List String) (files : List mets.File)
    (h : bag.collateralMetsLoop fs root rp ns = .ok files) :
    ∀ f ∈ files, ∃ p meta, bag.statFs fs p = .ok meta ∧
      f.checksum = some meta.md5 ∧ f.path = some p := by
  induction ns generalizing files with
  | nil =>
    rw [bag.collateralMetsLoop] at h
    cases h
    simp
  | cons n ns ih =>
    rw [bag.collateralMetsLoop] at h
    rcases hst : bag.statFs fs (bag.pjoin root (bag.pjoin (bag.pjoin rp "data") n)) with e | meta
    · simp only [hst, pyBindError] at h
      exact absurd h (by simp)
    · simp only [hst, pyBindOk] at h
      rcases hrec : bag.collateralMetsLoop fs root rp ns with e | rest
      · simp only [hrec, pyBindError] at h
        exact absurd h (by simp)
      · simp only [hrec, pyBindOk] at h
        cases h
        intro f hf
        rcases List.mem_cons.mp hf with hhd | htl
        · subst hhd
          exact ⟨_, meta, hst, rfl, rfl⟩
        · exact ih rest hrec f htl

/-- C7.  In the representation-level METS document the essence file
entry's checksum is the sidecar-declared digest — independent of the
digest the file system records for the copied file — while every
collateral entry's checksum is the digest read from the file on disk at
render time (each collateral entry's checksum equals the digest its own
path carries in the file system). -/
theorem C7_representation_mets_checksums (fs : bag.FS) (root essencePath scMd5 : String)
    (cols : List String) (doc : mets.METSDocSIP)
    (h : bag._create_representation_mets fs root essencePath cols scMd5 = .ok doc) :
    ∃ metaFolder dataFolder essenceFile colFiles,
      doc.files = [metaFolder, dataFolder] ∧
      dataFolder.children = essenceFile :: colFiles ∧
      essenceFile.checksum = some scMd5 ∧
      ∀ f ∈ colFiles, ∃ p meta, bag.statFs fs p = .ok meta ∧
        f.checksum = some meta.md5 ∧ f.path = some p := by
  simp only [bag._create_representation_mets] at h
  rcases hp : bag.statFs fs (bag.pjoin root (bag.pjoin (bag.pjoin (bag.pjoin
      (bag.pjoin "representations" "representation_1") "metadata") "preservation")
      "premis.xml")) with e | presMeta
  · simp only [hp, pyBindError] at h
    exact absurd h (by simp)
  · simp only [hp, pyBindOk] at h
    rcases he : bag.statFs fs (bag.pjoin root (bag.pjoin (bag.pjoin
        (bag.pjoin "representations" "representation_1") "data")
        (bag.pyName essencePath))) with e | essMeta
    · simp only [he, pyBindError] at h
      exact absurd h (by simp)
    · simp only [he, pyBindOk] at h
      rcases hc : bag.collateralMetsLoop fs root
          (bag.pjoin "representations" "representation_1")
          (List.map bag.pyName cols) with e | colFiles
      · simp only [hc, pyBindError] at h
        exact absurd h (by simp)
      · simp only [hc, pyBindOk] at h
        cases h
        refine ⟨_, _,
          mets.mkFile .FILE (some "data") (some "data")
            (bag.guess_mimetype (bag.pjoin root (bag.pjoin (bag.pjoin
              (bag.pjoin "representations" "representation_1") "data")
              (bag.pyName essencePath))))
            (some (bag.pjoin (bag.pjoin
              (bag.pjoin "representations" "representation_1") "data")
              (bag.pyName essencePath)))
            (some essMeta.size) (some scMd5)
            (some essMeta.ctime),
          colFiles, rfl, ?_, rfl,
          collateralMetsLoop_checksums fs root _ _ colFiles hc⟩
        simp [mets.mkFile, mets.File.add_child, foldl_add_child_children]

/-- C7 witness: on a file system where the copied essence's on-disk
digest is `deadbeef` but the sidecar declares `cafebabe`, the essence
entry carries `cafebabe` (never recomputed) while the collateral entry
carries the on-disk digest of its own path. -/
theorem C7_witness_representation_mets :
    bag.statFs fs7 "/w/essence/representations/representation_1/data/essence.mxf"
      = .ok { md5 := "deadbeef", size := 20, ctime := 2 } ∧
    ∃ doc, bag._create_representation_mets fs7 "/w/essence" "/in/essence.mxf"
        ["/in/sub.srt"] "cafebabe" = .ok doc ∧
      ∃ metaFolder dataFolder essenceFile colFiles,
        doc.files = [metaFolder, dataFolder] ∧
        dataFolder.children = essenceFile :: colFiles ∧
        essenceFile.checksum = some "cafebabe" ∧
        ∀ f ∈ colFiles, ∃ p meta, bag.statFs fs7 p = .ok meta ∧
          f.checksum = some meta.md5 ∧ f.path = some p :=
  ⟨rfl, _, rfl,
    C7_representation_mets_checksums fs7 "/w/essence" "/in/essence.mxf" "cafebabe"
      ["/in/sub.srt"] _ rfl⟩

theorem lookup_dictSetS_self (d : List (String × String)) (k v : String) :
    (app.dictSetS d k v).lookup k = some v := by
  induction d with
  | nil => simp [app.dictSetS, List.lookup]
  | cons a d ih =>
    by_cases hk : a.1 = k
    · simp [app.dictSetS, hk, List.lookup]
    · have hb : (k == a.1) = false := by simp [Ne.symm hk]
      simp [app.dictSetS, hk, List.lookup, hb, ih]

theorem lookup_dictSetS_ne (d : List (String × String)) (k v k' : String)
    (h : k' ≠ k) :
    (app.dictSetS d k v).lookup k' = d.lookup k' := by
  induction d with
  | nil =>
    have hb : (k' == k) = false := by simp [h]
    simp [app.dictSetS, List.lookup, hb]
  | cons a d ih =>
    by_cases hk : a.1 = k
    · subst hk
      have hb : (k' == a.1) = false := by simp [h]
      simp [app.dictSetS, List.lookup, hb]
    · by_cases hk' : k' = a.1
      · simp [app.dictSetS, hk, List.lookup, hk']
      · have hb : (k' == a.1) = false := by simp [hk']
        simp [app.dictSetS, hk, List.lookup, hb, ih]

/-- C8 counterexample.  With one collateral listed after the essence in
the bag manifest, the digest the tail compares is the *last*
representation-data entry's — the collateral's `"bbb"` — not the
essence's `"aaa"`, so even though the essence manifest digest equals the
lower-cased sidecar digest the run emits a failure event: the code does
not read the manifest digest *for the essence's in-package path*. -/
theorem C8_counterexample_last_data_entry :
    (entriesC8.filter (fun e => app.regex_match_essence e.1)).getLast?
      = some ("data/representations/representation_1/data/b.srt", "bbb") ∧
    entriesC8.lookup "data/representations/representation_1/data/a.mxf" = some "aaa" ∧
    lowerStr scC8.md5 = "aaa" ∧
    app.do_work_reconcile entriesC8 scC8 [] "/w/a.bag.zip" 42
      = .ok [.sendEvent "fail" (app.failPayload scC8 [] "/w/a.bag.zip" 42 "bbb"),
             .nack false] := by
  refine ⟨by decide, by decide, by decide, rfl⟩

/-- C8 amended: after the archive is produced, the pipeline reads the
digest of the *last* manifest entry matching the representation-data
pattern (the essence's entry exactly when no collateral follows it) and
compares it with the lower-cased sidecar digest; on mismatch it emits a
failure event whose payload carries both the sidecar digest and the
manifest digest, plus a nack, and performs no file-system operation, so
the archive is retained; on match it emits a success event plus ack. -/
theorem C8_amended_reconcile (entries : List (String × String))
    (sc : sidecar.Sidecar) (data0 : List (String × String))
    (bp : String) (bs : Nat) (p d : String)
    (hl : (entries.filter (fun e => app.regex_match_essence e.1)).getLast?
      = some (p, d)) :
    app.do_work_reconcile entries sc data0 bp bs
      = .ok (app.do_work_finish sc data0 bp bs d) ∧
    (d ≠ lowerStr sc.md5 →
       app.do_work_finish sc data0 bp bs d
         = [.sendEvent "fail" (app.failPayload sc data0 bp bs d), .nack false] ∧
       (app.failPayload sc data0 bp bs d).lookup "md5_hash_essence_sidecar"
         = some sc.md5 ∧
       (app.failPayload sc data0 bp bs d).lookup "md5_hash_essence_manifest"
         = some d) ∧
    (d = lowerStr sc.md5 →
       app.do_work_finish sc data0 bp bs d
         = [.sendEvent "success" (app.successPayload sc data0 bp bs d), .ack]) ∧
    (∀ q, app.AppAction.removeFile q ∉ app.do_work_finish sc data0 bp bs d) := by
  refine ⟨?_, ?_, ?_, ?_⟩
  · simp only [app.do_work_reconcile, hl]
  · intro hne
    refine ⟨?_, ?_, ?_⟩
    · rw [app.do_work_finish, if_pos hne]
    · simp [app.failPayload, app.reconcileData,
        lookup_dictSetS_ne, lookup_dictSetS_self]
    · simp [app.failPayload, app.reconcileData,
        lookup_dictSetS_ne, lookup_dictSetS_self]
  · intro he
    rw [app.do_work_finish, if_neg (by simp [he])]
  · intro q
    rw [app.do_work_finish]
    by_cases hne : d ≠ lowerStr sc.md5
    · rw [if_pos hne]
      simp
    · rw [if_neg hne]
      simp

/-- C8 witness: with the essence as the only representation-data entry
and a matching (upper-case) sidecar digest, the tail emits the success
event and acks. -/
theorem C8_witness_reconcile :
    app.do_work_reconcile
        [("data/representations/representation_1/data/e.mxf", "abc")]
        scC8ok [] "/w/e.bag.zip" 7
      = .ok [.sendEvent "success"
          (app.successPayload scC8ok [] "/w/e.bag.zip" 7 "abc"), .ack] := by
  have h := C8_amended_reconcile
    [("data/representations/representation_1/data/e.mxf", "abc")]
    scC8ok [] "/w/e.bag.zip" 7
    "data/representations/representation_1/data/e.mxf" "abc" (by decide)
  rw [h.1, h.2.2.1 (by decide)]

theorem rfindChar_eq_none (c : Char) (cs : List Char) (h : c ∉ cs) :
    bag.rfindChar c cs = none := by
  induction cs with
  | nil => rfl
  | cons x xs ih =>
    simp only [List.mem_cons, not_or] at h
    rw [bag.rfindChar, ih h.2]
    simp [Ne.symm h.1]

/-- C9 counterexample.  For an essence whose stem itself contains a dot,
`root_folder.with_suffix(".bag.zip")` *replaces* the stem's last
dot-suffix instead of appending: `my.video.mxf` (stem `my.video`)
yields an archive named `my.bag.zip`, not `<essence-stem>.bag.zip`. -/
theorem C9_counterexample_dotted_stem :
    bag.pyStem "my.video.mxf" = "my.video" ∧
    (bag.create_sip_bag_zip ["folder"] "my.video.mxf" []).bag_path_name
      = "my.bag.zip" ∧
    (bag.create_sip_bag_zip ["folder"] "my.video.mxf" []).bag_path_name
      ≠ bag.pyStem "my.video.mxf" ++ ".bag.zip" := by
  refine ⟨by decide, by decide, by decide⟩

/-- C9 amended: the archive produced by the final stage of
`create_sip_bag` is named by applying `with_suffix(".bag.zip")` to the
essence stem — which equals `<essence-stem>.bag.zip` whenever the stem
contains no dot — its entry arcnames are the paths under the working
directory made relative to it, and the working directory
`<parent>/<essence-stem>` is the directory removed afterwards, leaving
the archive as the only durable output. -/
theorem C9_amended_zip_naming (parent : List String) (name : String)
    (tree : List (List String))
    (h : '.' ∉ (bag.pyStem name).toList) :
    (bag.create_sip_bag_zip parent name tree).bag_path_name
      = bag.pyStem name ++ ".bag.zip" ∧
    (∀ q, ((parent ++ [bag.pyStem name]) ++ q) ∈ tree →
       q ∈ (bag.create_sip_bag_zip parent name tree).entries) ∧
    (bag.create_sip_bag_zip parent name tree).removed_root
      = parent ++ [bag.pyStem name] := by
  refine ⟨?_, ?_, rfl⟩
  · have hs : bag.pySuffix (bag.pyStem name) = "" := by
      unfold bag.pySuffix
      rw [rfindChar_eq_none '.' _ h]
    simp [bag.create_sip_bag_zip, bag.pyWithSuffix, hs]
  · intro q hq
    simp only [bag.create_sip_bag_zip]
    apply List.mem_filterMap.mpr
    refine ⟨(parent ++ [bag.pyStem name]) ++ q, hq, ?_⟩
    rw [if_pos (List.isPrefixOf_iff_prefix.mpr (List.prefix_append _ _))]
    simp [List.drop_left]

/-- C9 witness: for `essence.mxf` (dot-free stem) the archive is
`essence.bag.zip`, a file under the working directory appears in the
archive under its relative path, and the working directory
`folder/essence` is removed. -/
theorem C9_witness_zip_naming :
    (bag.create_sip_bag_zip ["folder"] "essence.mxf"
        [["folder", "essence", "mets.xml"]]).bag_path_name
      = "essence.bag.zip" ∧
    ["mets.xml"] ∈ (bag.create_sip_bag_zip ["folder"] "essence.mxf"
        [["folder", "essence", "mets.xml"]]).entries ∧
    (bag.create_sip_bag_zip ["folder"] "essence.mxf"
        [["folder", "essence", "mets.xml"]]).removed_root
      = ["folder", "essence"] := by
  have h := C9_amended_zip_naming ["folder"] "essence.mxf"
    [["folder", "essence", "mets.xml"]] (by decide)
  refine ⟨by rw [h.1]; decide, ?_, h.2.2⟩
  exact h.2.1 ["mets.xml"] (by decide)

theorem foldl_applyAdd_objects (ops : List AddOp) (p : premis.Premis) :
    (ops.foldl applyAdd p).objects = p.objects ++ opsObjects ops := by
  induction ops generalizing p with
  | nil => simp [opsObjects]
  | cons o ops ih =>
    cases o <;>
      simp [applyAdd, opsObjects, ih, premis.Premis.add_object,
        premis.Premis.add_event, premis.Premis.add_agent]

theorem foldl_applyAdd_events (ops : List AddOp) (p : premis.Premis) :
    (ops.foldl applyAdd p).events = p.events ++ opsEvents ops := by
  induction ops generalizing p with
  | nil => simp [opsEvents]
  | cons o ops ih =>
    cases o <;>
      simp [applyAdd, opsEvents, ih, premis.Premis.add_object,
        premis.Premis.add_event, premis.Premis.add_agent]

theorem foldl_applyAdd_agents (ops : List AddOp) (p : premis.Premis) :
    (ops.foldl applyAdd p).agents = p.agents ++ opsAgents ops := by
  induction ops generalizing p with
  | nil => simp [opsAgents]
  | cons o ops ih =>
    cases o <;>
      simp [applyAdd, opsAgents, ih, premis.Premis.add_object,
        premis.Premis.add_event, premis.Premis.add_agent]

/-- C10.  After any sequence of add-method calls starting from a fresh
`Premis`, the objects list holds exactly the nodes handed to
`add_object` in call order (likewise events/agents — each add-method
only appends), and a successful `to_element` renders the children as
the objects-list group, then the events-list group, then the
agents-list group, so a node's placement is determined solely by which
add-method received it. -/
theorem C10_premis_grouping (ops : List AddOp) (e : Elem)
    (h : premis.Premis.to_element (ops.foldl applyAdd premis.Premis.new) = .ok e) :
    (ops.foldl applyAdd premis.Premis.new).objects = opsObjects ops ∧
    (ops.foldl applyAdd premis.Premis.new).events = opsEvents ops ∧
    (ops.foldl applyAdd premis.Premis.new).agents = opsAgents ops ∧
    ∃ os es as,
      mapExcept premis.PNode.to_element (opsObjects ops) = .ok os ∧
      mapExcept premis.PNode.to_element (opsEvents ops) = .ok es ∧
      mapExcept premis.PNode.to_element (opsAgents ops) = .ok as ∧
      e.children = os ++ es ++ as := by
  have ho : (ops.foldl applyAdd premis.Premis.new).objects = opsObjects ops := by
    simpa using foldl_applyAdd_objects ops premis.Premis.new
  have hev : (ops.foldl applyAdd premis.Premis.new).events = opsEvents ops := by
    simpa using foldl_applyAdd_events ops premis.Premis.new
  have hag : (ops.foldl applyAdd premis.Premis.new).agents = opsAgents ops := by
    simpa using foldl_applyAdd_agents ops premis.Premis.new
  refine ⟨ho, hev, hag, ?_⟩
  rw [premis.Premis.to_element, ho, hev, hag] at h
  rcases hos : mapExcept premis.PNode.to_element (opsObjects ops) with e1 | os
  · simp only [hos, pyBindError] at h
    exact absurd h (by simp)
  · simp only [hos, pyBindOk] at h
    rcases hes : mapExcept premis.PNode.to_element (opsEvents ops) with e1 | es
    · simp only [hes, pyBindError] at h
      exact absurd h (by simp)
    · simp only [hes, pyBindOk] at h
      rcases has : mapExcept premis.PNode.to_element (opsAgents ops) with e1 | as
      · simp only [has, pyBindError] at h
        exact absurd h (by simp)
      · simp only [has, pyBindOk] at h
        cases h
        exact ⟨os, es, as, rfl, rfl, rfl, rfl⟩

/-- C10 witness: an agent added first via `add_agent`, an object added
second via `add_object` and an event added third via `add_event` are
rendered with the object's element first, then the event's, then the
agent's. -/
theorem C10_witness_premis_grouping :
    ∃ e, premis.Premis.to_element (opsC10.foldl applyAdd premis.Premis.new) = .ok e ∧
      ∃ os es as,
        mapExcept premis.PNode.to_element (opsObjects opsC10) = .ok os ∧
        mapExcept premis.PNode.to_element (opsEvents opsC10) = .ok es ∧
        mapExcept premis.PNode.to_element (opsAgents opsC10) = .ok as ∧
        e.children = os ++ es ++ as :=
  ⟨_, rfl, (C10_premis_grouping opsC10 _ rfl).2.2.2⟩
